import Mathlib

/-
Shallow embedding of the authentication core of the devlogs backend
(app/core/security.py and app/api/auth.py), together with the behavior of
the PyJWT library calls those modules make, at the level of observable
inputs and outputs.  External effects (the identity provider, the
verify_user_password RPC, the users table) are passed in as explicit data.
-/

namespace DevlogsAuth

/-- Python truthiness of an optional string: `None` and `""` are falsy. -/
def strTruthy : Option String → Bool
  | some s => s ≠ ""
  | none => false

/-- Python `a or d` for an optional string `a` and a default `d`:
yields `d` when `a` is `None` or the empty string. -/
def pyOr (a : Option String) (d : String) : String :=
  match a with
  | some s => if s = "" then d else s
  | none => d

/-- Occurrence of a needle inside a haystack, by structural recursion on
the haystack (kernel-reducible, unlike the position-based core string
functions). -/
def subOccurs (needle : List Char) : List Char → Bool
  | [] => needle.isPrefixOf []
  | c :: t => needle.isPrefixOf (c :: t) || subOccurs needle t

/-- Python substring test `needle in hay`. -/
def containsSub (hay needle : String) : Bool :=
  subOccurs needle.toList hay.toList

/-- Python `email.split("@")[0]`: the part before the first `@`
(the whole string when no `@` occurs). -/
def emailLocalPart (e : String) : String :=
  String.mk (e.toList.takeWhile (fun c => c ≠ '@'))

/-- Remove the leftmost, non-overlapping occurrences of a (nonempty)
needle, fuelled to stay structurally recursive. -/
def removeSubAux (needle : List Char) : Nat → List Char → List Char
  | 0, l => l
  | _ + 1, [] => []
  | fuel + 1, c :: t =>
    if needle.isPrefixOf (c :: t) then removeSubAux needle fuel ((c :: t).drop needle.length)
    else c :: removeSubAux needle fuel t

/-- Python `hay.replace(needle, "")` for a nonempty needle. -/
def removeSub (hay needle : String) : String :=
  String.mk (removeSubAux needle.toList hay.toList.length hay.toList)

/-- `alg.startswith(p)` on strings, via lists (kernel-reducible). -/
def strStartsWith (s p : String) : Bool :=
  p.toList.isPrefixOf s.toList

/-- Python `s.strip()` (whitespace at both ends). -/
def pyStrip (s : String) : String :=
  String.mk (((s.toList.dropWhile Char.isWhitespace).reverse.dropWhile
    Char.isWhitespace).reverse)

/-- Lowercasing via lists (kernel-reducible). -/
def strToLower (s : String) : String :=
  String.mk (s.toList.map Char.toLower)

/-- Hexadecimal digit test, as accepted by Python `int(hex, 16)` on a
plain digit (the sign/whitespace/0x-prefix leniency of Python `int` is
not modelled; no claim depends on it). -/
def hexDigit (c : Char) : Bool :=
  c.isDigit || (('a' : Char) ≤ c && c ≤ ('f' : Char)) || (('A' : Char) ≤ c && c ≤ ('F' : Char))

/-- Python `uuid.UUID(s)`: drop every occurrence of `urn:` and `uuid:`,
strip `{`/`}` from both ends, drop dashes, then require exactly 32 hex
digits.  `none` models the `ValueError` the constructor raises otherwise;
on success the canonical lowercase 32-hex-digit form is returned. -/
def pyUUID (s : String) : Option String :=
  let s1 := removeSub (removeSub s "urn:") "uuid:"
  let brace : Char → Bool := fun c => c = '{' || c = '}'
  let l1 := (((s1.toList.dropWhile brace).reverse.dropWhile brace).reverse).filter
    (fun c => c ≠ '-')
  if l1.length = 32 && l1.all hexDigit then some (String.mk (l1.map Char.toLower)) else none

/-- Python `str(uuid.UUID(...))`: the canonical hyphenated 8-4-4-4-12 form
of a normalized 32-hex-digit uuid. -/
def uuidStr (u : String) : String :=
  let l := u.toList
  String.mk (l.take 8) ++ "-" ++ String.mk ((l.drop 8).take 4) ++ "-"
    ++ String.mk ((l.drop 12).take 4) ++ "-" ++ String.mk ((l.drop 16).take 4) ++ "-"
    ++ String.mk (l.drop 20)

/-! ## JWT model -/

/-- The claim set of a JWT as used by this code base (`sub`, `email`,
`aud`, `role`, `iat`, `exp`); absent claims are `none`. -/
structure Claims where
  sub : Option String
  email : Option String
  aud : Option String
  role : Option String
  iat : Option Int
  exp : Option Int
deriving DecidableEq

/-- The key a token was signed with: a symmetric HMAC secret, or the
private half of an asymmetric pair identified by its public key material. -/
inductive SigKey
  | hs (secret : String)
  | pub (keyId : String)
deriving DecidableEq

/-- A JWT as seen by the verifier: declared algorithm and key id from the
(unverified) header, the payload claims, and the key that actually
produced the signature. -/
structure Jwt where
  alg : String
  kid : Option String
  claims : Claims
  sigKey : SigKey
deriving DecidableEq

/-- The PyJWT exceptions this code can observe; all are subclasses of
`PyJWTError`. -/
inductive JwtError
  | expiredSignature
  | invalidSignature
  | invalidAlgorithm
  | immatureSignature
  | jwkClientError
deriving DecidableEq

/-- PyJWT signature verification (`api_jws`): the header algorithm must be
in the allowed list, then the signature must have been produced by the
verification key. -/
def verifySignature (t : Jwt) (key : SigKey) (allowed : List String) : Option JwtError :=
  if t.alg ∈ allowed then
    if t.sigKey = key then none else some .invalidSignature
  else some .invalidAlgorithm

/-- PyJWT claim validation (`api_jwt._validate`, with `verify_aud` off as
this code always passes): `iat` is checked before `exp`; `iat` more than
`leeway` in the future raises `ImmatureSignatureError`; `exp ≤ now - leeway`
raises `ExpiredSignatureError`; the audience claim is never inspected. -/
def validateClaims (c : Claims) (now leeway : Int) : Option JwtError :=
  match c.iat with
  | some i =>
    if i > now + leeway then some .immatureSignature
    else match c.exp with
      | some e => if e ≤ now - leeway then some .expiredSignature else none
      | none => none
  | none =>
    match c.exp with
    | some e => if e ≤ now - leeway then some .expiredSignature else none
    | none => none

/-- PyJWT `decode`: signature verification happens first, then claim
validation; on success the payload claims are returned. -/
def pyjwtDecode (t : Jwt) (key : SigKey) (allowed : List String) (now leeway : Int) :
    Except JwtError Claims :=
  match verifySignature t key allowed with
  | some e => .error e
  | none =>
    match validateClaims t.claims now leeway with
    | some e => .error e
    | none => .ok t.claims

/-- The configuration the auth code reads: the shared HS secret
(`settings.JWT_SECRET`) and the remote JWKS key set, as a key-id ↦ public
key association list. -/
structure AuthEnv where
  jwtSecret : String
  jwks : List (String × String)
deriving DecidableEq

/-- `PyJWKClient.get_signing_key_from_jwt`: look the header key id up in
the published key set; `none` models the `PyJWKClientError` raised when no
key matches (also when the header carries no kid). -/
def getSigningKey (jwks : List (String × String)) (kid : Option String) : Option String :=
  match kid with
  | some k => jwks.lookup k
  | none => none

/-- The algorithm-family test of `_decode_token` (app/core/security.py
line 38): `alg.startswith("ES") or alg.startswith("RS") or
alg.startswith("PS")`. -/
def isAsymAlg (alg : String) : Bool :=
  strStartsWith alg "ES" || strStartsWith alg "RS" || strStartsWith alg "PS"

/-- `_decode_token` (app/core/security.py): peek at the unverified header
algorithm; ES/RS/PS-prefixed algorithms are verified with the JWKS public
key resolved by kid, everything else against `JWT_SECRET` with HS256/384/512
allowed; both paths skip audience verification and use a 30-second leeway. -/
def decodeToken (env : AuthEnv) (t : Jwt) (now : Int) : Except JwtError Claims :=
  if isAsymAlg t.alg then
    match getSigningKey env.jwks t.kid with
    | none => .error .jwkClientError
    | some k => pyjwtDecode t (.pub k) [t.alg] now 30
  else
    pyjwtDecode t (.hs env.jwtSecret) ["HS256", "HS384", "HS512"] now 30

/-- The complete signature-stage check performed by `_decode_token` before
any claim validation: key resolution (asymmetric path) plus PyJWT
signature verification with the branch's allowed algorithm list. -/
def verifierSigCheck (env : AuthEnv) (t : Jwt) : Option JwtError :=
  if isAsymAlg t.alg then
    match getSigningKey env.jwks t.kid with
    | none => some .jwkClientError
    | some k => verifySignature t (.pub k) [t.alg]
  else verifySignature t (.hs env.jwtSecret) ["HS256", "HS384", "HS512"]

/-- `TokenData` (app/core/security.py): the authenticated identity, holding
the parsed UUID subject (in canonical 32-hex-digit form) and the optional
email claim. -/
structure TokenData where
  user_id : String
  email : Option String
deriving DecidableEq

/-- The observable outcome of `get_current_user`: an identity, an
`HTTPException` (status 401 in every branch of this function), or an
exception that escapes the handler entirely (surfacing as HTTP 500). -/
inductive AuthResult
  | ok (d : TokenData)
  | httpError (statusCode : Nat) (detail : String)
  | uncaught (exnName : String)
deriving DecidableEq

/-- `get_current_user` (app/core/security.py): reject a missing credential;
decode the token, mapping `ExpiredSignatureError`, `InvalidSignatureError`
and other `PyJWTError`s to 401s; reject a missing (or empty, by Python
truthiness) `sub` claim with 401; then parse the subject as a UUID — the
`ValueError` a non-UUID subject raises is caught by no handler. -/
def getCurrentUser (env : AuthEnv) (cred : Option Jwt) (now : Int) : AuthResult :=
  match cred with
  | none => .httpError 401 "Not authenticated"
  | some t =>
    match decodeToken env t now with
    | .error .expiredSignature => .httpError 401 "Token has expired"
    | .error .invalidSignature => .httpError 401 "Invalid token signature"
    | .error .invalidAlgorithm => .httpError 401 "JWT validation failed: InvalidAlgorithmError"
    | .error .immatureSignature => .httpError 401 "JWT validation failed: ImmatureSignatureError"
    | .error .jwkClientError => .httpError 401 "JWT validation failed: PyJWKClientError"
    | .ok payload =>
      match payload.sub with
      | none => .httpError 401 "Token missing 'sub' claim"
      | some s =>
        if s = "" then .httpError 401 "Token missing 'sub' claim"
        else
          match pyUUID s with
          | none => .uncaught "ValueError"
          | some u => .ok ⟨u, payload.email⟩

/-! ## Login (app/api/auth.py, `login`) -/

/-- The user object inside a provider 200 login response: id, email, and
the optional `name`/`full_name` entries of `user_metadata` (absent
metadata is the same as an empty one). -/
structure ProviderUser where
  id : String
  email : String
  metaName : Option String
  metaFullName : Option String
deriving DecidableEq

/-- The JSON body of a provider 200 login response. -/
structure ProviderLoginBody where
  access_token : String
  user : ProviderUser
deriving DecidableEq

/-- What the GoTrue password-grant call produced: a 200 with a body, a
non-200 status with the `msg`/`error_description` fields its JSON carries
(`none` also covers an unparsable body), or an `httpx.HTTPError`
(network error or timeout). -/
inductive ProviderResp
  | ok (body : ProviderLoginBody)
  | err (statusCode : Nat) (msg errDesc : Option String)
  | netError
deriving DecidableEq

/-- The provider outcomes after which `login` proceeds to the fallback
tier: a 5xx response, or an `httpx.HTTPError` (network error / timeout). -/
def providerUnavailable : ProviderResp → Bool
  | .ok _ => false
  | .err statusCode _ _ => 500 ≤ statusCode
  | .netError => true

/-- One row returned by the `verify_user_password` RPC. -/
structure RpcRow where
  is_valid : Bool
  id : String
  email : String
  name : Option String
deriving DecidableEq

/-- What the `verify_user_password` RPC call produced: a row list, or a
raised exception with its message. -/
inductive RpcResult
  | rows (rows : List RpcRow)
  | exn (msg : String)
deriving DecidableEq

/-- An access token in a login/signup response: the provider's opaque
token string, or a locally minted JWT. -/
inductive AccessToken
  | provider (s : String)
  | minted (t : Jwt)
deriving DecidableEq

/-- The body of a successful `LoginResponse`. -/
structure LoginSuccess where
  access_token : AccessToken
  token_type : String
  userId : String
  userEmail : String
  userName : String
deriving DecidableEq

/-- Outcome of the `login` handler: a `LoginResponse` or an `HTTPException`
with status and detail. -/
inductive LoginResult
  | success (r : LoginSuccess)
  | httpExc (statusCode : Nat) (detail : String)
deriving DecidableEq

/-- The locally issued fallback JWT (app/api/auth.py lines 127-136):
HS256 over `JWT_SECRET` with claims sub, email, aud="authenticated",
role="authenticated", iat=now, exp=now+3600. -/
def mintToken (secret sub email : String) (now : Int) : Jwt :=
  { alg := "HS256"
    kid := none
    claims :=
      { sub := some sub
        email := some email
        aud := some "authenticated"
        role := some "authenticated"
        iat := some now
        exp := some (now + 3600) }
    sigKey := .hs secret }

/-- The fallback tier of `login` (app/api/auth.py lines 97-142): an RPC
exception maps to 503; an empty row set or a first row with falsy
`is_valid` maps to 401; otherwise a local JWT is minted and the display
name falls back to the email's local part. -/
def loginFallback (env : AuthEnv) (rpc : RpcResult) (now : Int) : LoginResult :=
  match rpc with
  | .exn m =>
    .httpExc 503
      ("Auth service is unavailable and the fallback verify_user_password RPC function may not exist. Error: "
        ++ m)
  | .rows [] => .httpExc 401 "Invalid email or password"
  | .rows (row :: _) =>
    if !row.is_valid then .httpExc 401 "Invalid email or password"
    else
      .success
        { access_token := .minted (mintToken env.jwtSecret row.id row.email now)
          token_type := "bearer"
          userId := row.id
          userEmail := row.email
          userName := pyOr row.name (emailLocalPart row.email) }

/-- `login` (app/api/auth.py): a provider 200 answers directly (display
name from metadata `name`, then `full_name`, then the email); any other
status below 500 raises 401 with the provider's message; a 5xx or an
`httpx.HTTPError` falls through to the fallback tier.  The second
component records whether the fallback RPC was invoked. -/
def login (env : AuthEnv) (provider : ProviderResp) (rpc : RpcResult) (now : Int) :
    LoginResult × Bool :=
  match provider with
  | .ok b =>
    (.success
      { access_token := .provider b.access_token
        token_type := "bearer"
        userId := b.user.id
        userEmail := b.user.email
        userName := pyOr b.user.metaName (pyOr b.user.metaFullName b.user.email) },
      false)
  | .err statusCode msg errDesc =>
    if statusCode < 500 then
      (.httpExc 401 (pyOr msg (pyOr errDesc "Invalid email or password")), false)
    else
      (loginFallback env rpc now, true)
  | .netError => (loginFallback env rpc now, true)

/-! ## Signup (app/api/auth.py, `signup`) -/

/-- The user object of a provider signup success body. -/
structure SignupUser where
  id : String
  email : String
  metaDisplayName : Option String
  metaName : Option String
  metaFullName : Option String
  emailConfirmedAt : Option String
deriving DecidableEq

/-- The JSON body of a provider signup success: the user record and the
`access_token` of the session object when one is present. -/
structure SignupBody where
  user : SignupUser
  sessionToken : Option String
deriving DecidableEq

/-- What the GoTrue signup call produced: an HTTP response with its
status, the success body when it parses, and the `msg`/
`error_description`/`message` fields of an error body; or a raised
exception with its message. -/
inductive SignupProviderResp
  | resp (statusCode : Nat) (body : Option SignupBody) (msg errDesc message : Option String)
  | exn (m : String)
deriving DecidableEq

/-- Outcome of the `signup` handler; `noResponse` models the handler
falling off the end (status 202–399: no return statement runs). -/
inductive SignupResult
  | success (token : AccessToken) (userId userEmail userName : String)
      (emailConfirmed : Bool)
  | httpExc (statusCode : Nat) (detail : String)
  | noResponse
deriving DecidableEq

/-- The duplicate-email test of `signup` (app/api/auth.py line 238): a 422
status, or the substring "already registered" in the lowercased detail. -/
def indicatesAlreadyRegistered (statusCode : Nat) (detail : String) : Bool :=
  statusCode = 422 || containsSub (strToLower detail) "already registered"

/-- `signup` (app/api/auth.py lines 145-255): 200/201 returns the provider
session token when present, else mints a 1-hour local token; the display
name cascades display_name → name → full_name → email local part; on a
status ≥ 400 the detail cascades msg → error_description → message →
"Signup failed", a 422 status or an "already registered" substring of the
lowercased detail maps to 409, any other such status to 400; any other
exception (including a 200 whose body fails to parse) maps to 503. -/
def signup (env : AuthEnv) (resp : SignupProviderResp) (now : Int) : SignupResult :=
  match resp with
  | .exn m => .httpExc 503 ("Auth service unavailable: " ++ m)
  | .resp statusCode body msg errDesc message =>
    if statusCode = 200 ∨ statusCode = 201 then
      match body with
      | none => .httpExc 503 "Auth service unavailable: KeyError"
      | some b =>
        let name := pyOr b.user.metaDisplayName
          (pyOr b.user.metaName
            (pyOr b.user.metaFullName (emailLocalPart b.user.email)))
        let token : AccessToken :=
          if strTruthy b.sessionToken then .provider (pyOr b.sessionToken "")
          else .minted (mintToken env.jwtSecret b.user.id b.user.email now)
        .success token b.user.id b.user.email name (b.user.emailConfirmedAt ≠ none)
    else if statusCode ≥ 400 then
      let detail := pyOr msg (pyOr errDesc (pyOr message "Signup failed"))
      if indicatesAlreadyRegistered statusCode detail then
        .httpExc 409 "Email already registered"
      else
        .httpExc 400 detail
    else .noResponse

/-! ## Ancillary endpoints (app/api/auth.py) -/

/-- A generic endpoint outcome: a JSON message body, an `HTTPException`,
or an exception escaping the handler (HTTP 500). -/
inductive EndpointResult
  | okMsg (msg : String)
  | httpExc (statusCode : Nat) (detail : String)
  | uncaught (exnName : String)
deriving DecidableEq

/-- An HTTP response from an outbound call as the ancillary endpoints see
it: status plus the optional `error_description`/`message` fields of its
JSON body (`none` also covers an unparsable body). -/
structure OutboundResp where
  statusCode : Nat
  errDesc : Option String
  message : Option String
deriving DecidableEq

/-- `verify_email` (app/api/auth.py lines 258-310): no authentication
dependency; a provider 200 answers with a success message, any other
status with 400 and the provider's message, a raised exception with 503. -/
def verifyEmail (resp : Except String OutboundResp) : EndpointResult :=
  match resp with
  | .error m => .httpExc 503 ("Verification service unavailable: " ++ m)
  | .ok r =>
    if r.statusCode = 200 then .okMsg "Email verified successfully"
    else .httpExc 400 (pyOr r.errDesc (pyOr r.message "Verification failed"))

/-- `resend_verification` (app/api/auth.py lines 313-348): no
authentication dependency; 200 → success message, any other status → 400,
a raised exception → 503. -/
def resendVerification (resp : Except String Nat) : EndpointResult :=
  match resp with
  | .error m => .httpExc 503 ("Service unavailable: " ++ m)
  | .ok statusCode =>
    if statusCode = 200 then .okMsg "Verification email sent"
    else .httpExc 400 "Failed to resend verification email"

/-- `logout` (app/api/auth.py lines 404-407): no authentication
dependency and no effect; always the success message. -/
def logout : EndpointResult :=
  .okMsg "Logged out successfully"

/-- Lift a `get_current_user` failure into an endpoint result; on success
run the endpoint body with the authenticated identity.  This mirrors
FastAPI resolving a `Depends(get_current_user)` parameter before the
handler body runs. -/
def withAuth (env : AuthEnv) (cred : Option Jwt) (now : Int)
    (body : TokenData → EndpointResult) : EndpointResult :=
  match getCurrentUser env cred now with
  | .httpError s d => .httpExc s d
  | .uncaught e => .uncaught e
  | .ok d => body d

/-- `set_password` (app/api/auth.py lines 351-401): requires an
authenticated user; the admin user-update call's 200 answers with a
success message, any other status with 400 and the provider's message, a
raised exception with 503. -/
def setPassword (env : AuthEnv) (cred : Option Jwt) (now : Int)
    (adminResp : Except String OutboundResp) : EndpointResult :=
  withAuth env cred now fun _ =>
    match adminResp with
    | .error m => .httpExc 503 ("Service unavailable: " ++ m)
    | .ok r =>
      if r.statusCode = 200 then .okMsg "Password set successfully"
      else .httpExc 400 (pyOr r.errDesc (pyOr r.message "Failed to set password"))

/-- A row of the `public.users` profile table as the endpoints read and
write it. -/
structure UserRow where
  id : String
  email : String
  name : Option String
  display_name : Option String
  email_confirmed_at : Option String
deriving DecidableEq

/-- The `/me` response body (app/api/auth.py lines 473-480). -/
structure MeResponse where
  id : String
  email : Option String
  name : String
  display_name : String
  email_confirmed : Bool
  has_password : Bool
deriving DecidableEq

/-- `me` (app/api/auth.py lines 410-480): requires an authenticated user;
reads the profile row (errors swallowed), derives `has_password` from the
identity rows (an error there defaults it to True), and when still False
consults the admin user endpoint's `has_password` metadata flag (errors
swallowed).  External reads are passed in: the profile row query result,
the identity-provider list query result, and the admin fetch result
(status and metadata flag). -/
def meEndpoint (env : AuthEnv) (cred : Option Jwt) (now : Int)
    (profileRes : Except String (Option UserRow))
    (identRes : Except String (List String))
    (adminRes : Except String (Nat × Bool)) : Except EndpointResult MeResponse :=
  match getCurrentUser env cred now with
  | .httpError s d => .error (.httpExc s d)
  | .uncaught e => .error (.uncaught e)
  | .ok d =>
    let profile : Option UserRow :=
      match profileRes with
      | .error _ => none
      | .ok row => row
    let name : Option String := profile.bind (fun r => r.name)
    let display_name : Option String := profile.bind (fun r => r.display_name)
    let email_confirmed : Bool :=
      match profile with
      | some r => r.email_confirmed_at ≠ none
      | none => false
    let hp1 : Bool :=
      match identRes with
      | .error _ => true
      | .ok [] => false
      | .ok provs => provs.any (fun p => p = "email")
    let has_password : Bool :=
      if hp1 then true
      else
        match adminRes with
        | .error _ => false
        | .ok (statusCode, flag) => statusCode = 200 && flag
    .ok
      { id := uuidStr d.user_id
        email := d.email
        name := pyOr name ""
        display_name := pyOr display_name (pyOr name "")
        email_confirmed := email_confirmed
        has_password := has_password }

/-- The `update_profile` request body. -/
structure UpdateProfileRequest where
  name : Option String
  display_name : Option String
deriving DecidableEq

/-- The `update_data` dict built by `update_profile`: each field present
exactly when the request supplied it, already stripped. -/
structure UpdateData where
  name : Option String
  display_name : Option String
deriving DecidableEq

/-- Apply an update dict to a users-table row (only supplied columns
change). -/
def applyUpdate (d : UpdateData) (r : UserRow) : UserRow :=
  { r with
    name := match d.name with | some n => some n | none => r.name
    display_name := match d.display_name with | some n => some n | none => r.display_name }

/-- `table("users").update(d).eq("id", uid).execute()`: update every row
whose id matches; the second component is the list of updated rows
(`result.data`). -/
def tableUpdate (users : List UserRow) (uid : String) (d : UpdateData) :
    List UserRow × List UserRow :=
  (users.map (fun r => if r.id = uid then applyUpdate d r else r),
   (users.filter (fun r => r.id = uid)).map (applyUpdate d))

/-- `table("users").upsert(row)`: replace the row with a matching id, or
append when none exists. -/
def tableUpsert (users : List UserRow) (row : UserRow) : List UserRow :=
  if users.any (fun r => r.id = row.id) then
    users.map (fun r => if r.id = row.id then row else r)
  else users ++ [row]

/-- `update_profile` (app/api/auth.py lines 488-528): requires an
authenticated user; builds `update_data` from the stripped non-null
request fields; with no field present raises 400 "No fields to update"
before touching the store; otherwise updates the matching row, upserting a
fresh one when no row matched; a store exception maps to 500.  Returns
the endpoint result together with the resulting users table. -/
def updateProfile (env : AuthEnv) (cred : Option Jwt) (now : Int)
    (body : UpdateProfileRequest) (users : List UserRow) (dbExn : Option String) :
    EndpointResult × List UserRow :=
  match getCurrentUser env cred now with
  | .httpError s d => (.httpExc s d, users)
  | .uncaught e => (.uncaught e, users)
  | .ok d =>
    let update_data : UpdateData :=
      { name := body.name.map pyStrip
        display_name := body.display_name.map pyStrip }
    if update_data.name = none ∧ update_data.display_name = none then
      (.httpExc 400 "No fields to update", users)
    else
      match dbExn with
      | some m => (.httpExc 500 ("Failed to update profile: " ++ m), users)
      | none =>
        let (updated, matched) := tableUpdate users (uuidStr d.user_id) update_data
        if matched = [] then
          let fresh : UserRow :=
            { id := uuidStr d.user_id
              email := pyOr d.email ""
              name := update_data.name
              display_name := update_data.display_name
              email_confirmed_at := none }
          (.okMsg "Profile updated", tableUpsert updated fresh)
        else (.okMsg "Profile updated", updated)

/-! ## Helper lemmas -/

theorem pyUUID_empty : pyUUID "" = none := by decide

theorem pyUUID_ne_empty {s uid : String} (h : pyUUID s = some uid) : s ≠ "" := by
  intro he
  rw [he, pyUUID_empty] at h
  exact Option.noConfusion h

theorem decodeToken_decomp (env : AuthEnv) (t : Jwt) (now : Int) :
    decodeToken env t now =
      match verifierSigCheck env t with
      | some er => .error er
      | none =>
        match validateClaims t.claims now 30 with
        | some er => .error er
        | none => .ok t.claims := by
  cases h : isAsymAlg t.alg with
  | false =>
    simp only [decodeToken, verifierSigCheck, h, Bool.false_eq_true, if_false, pyjwtDecode]
  | true =>
    simp only [decodeToken, verifierSigCheck, h, if_true]
    cases getSigningKey env.jwks t.kid with
    | none => rfl
    | some k => simp only [pyjwtDecode]

theorem validateClaims_iff (c : Claims) (now : Int) :
    validateClaims c now 30 = none ↔
      ((∀ i, c.iat = some i → i ≤ now + 30) ∧ (∀ e, c.exp = some e → now - 30 < e)) := by
  unfold validateClaims
  cases hi : c.iat <;> cases he : c.exp <;>
    simp [hi, he] <;> split_ifs <;> simp_all

theorem verifierSigCheck_mint (env : AuthEnv) (sub email : String) (now : Int) :
    verifierSigCheck env (mintToken env.jwtSecret sub email now) = none := by
  have h : isAsymAlg "HS256" = false := by decide
  simp [verifierSigCheck, mintToken, verifySignature, h]

theorem validateClaims_mint (secret sub email : String) (now : Int) :
    validateClaims (mintToken secret sub email now).claims now 30 = none := by
  rw [validateClaims_iff]
  constructor
  · intro i hi
    simp only [mintToken, Option.some.injEq] at hi
    omega
  · intro e he
    simp only [mintToken, Option.some.injEq] at he
    omega

theorem decodeToken_mint (env : AuthEnv) (sub email : String) (now : Int) :
    decodeToken env (mintToken env.jwtSecret sub email now) now
      = .ok (mintToken env.jwtSecret sub email now).claims := by
  rw [decodeToken_decomp, verifierSigCheck_mint, validateClaims_mint]

theorem getCurrentUser_ok (env : AuthEnv) (t : Jwt) (now : Int) (s uid : String)
    (hdec : decodeToken env t now = .ok t.claims) (hsub : t.claims.sub = some s)
    (hs : s ≠ "") (hu : pyUUID s = some uid) :
    getCurrentUser env (some t) now = .ok ⟨uid, t.claims.email⟩ := by
  simp [getCurrentUser, hdec, hsub, hs, hu]

theorem getCurrentUser_mint (env : AuthEnv) (sub email : String) (now : Int) (uid : String)
    (hu : pyUUID sub = some uid) :
    getCurrentUser env (some (mintToken env.jwtSecret sub email now)) now
      = .ok ⟨uid, some email⟩ := by
  have h := getCurrentUser_ok env (mintToken env.jwtSecret sub email now) now sub uid
    (decodeToken_mint env sub email now) (by simp [mintToken]) (pyUUID_ne_empty hu) hu
  simpa [mintToken] using h

/-! ## Claim theorems -/

/-- C8: with `{email:"a@x.com", password:"right"}` answered by a provider
200 carrying access_token "T1" and user `{id:"U1", email:"a@x.com"}` with
no metadata name, `login` returns exactly
`{access_token:"T1", user:{id:"U1", email:"a@x.com", name:"a@x.com"}}`
(name falls back to the full email) and the fallback path is not invoked,
whatever the RPC would have answered. -/
theorem login_provider_success_scenario (env : AuthEnv) (rpc : RpcResult) (now : Int) :
    login env (.ok ⟨"T1", ⟨"U1", "a@x.com", none, none⟩⟩) rpc now
      = (.success ⟨.provider "T1", "bearer", "U1", "a@x.com", "a@x.com"⟩, false) := rfl

/-- C2: a provider 4xx makes `login` raise an invalid-credentials 401
without invoking the fallback RPC, and the fallback is invoked only when
the provider was unavailable (5xx, network error, or timeout). -/
theorem login_4xx_no_fallback (env : AuthEnv) (rpc : RpcResult) (now : Int)
    (statusCode : Nat) (msg errDesc : Option String)
    (_h4 : 400 ≤ statusCode) (h5 : statusCode < 500) :
    login env (.err statusCode msg errDesc) rpc now
        = (.httpExc 401 (pyOr msg (pyOr errDesc "Invalid email or password")), false) ∧
      ∀ provider, (login env provider rpc now).2 = true → providerUnavailable provider = true := by
  constructor
  · simp [login, h5]
  · intro provider h
    cases provider with
    | ok b => simp [login] at h
    | netError => rfl
    | err s m ed =>
      by_cases hs : s < 500
      · simp [login, hs] at h
      · simp [providerUnavailable]
        omega

theorem login_4xx_no_fallback_witness :
    login ⟨"sec", []⟩ (.err 401 none none) (.rows []) 0
      = (.httpExc 401 "Invalid email or password", false) :=
  (login_4xx_no_fallback ⟨"sec", []⟩ (.rows []) 0 401 none none (by decide) (by decide)).1

/-- C5: a successful fallback login returns a token signed with HS256 over
the shared secret whose claims are exactly sub, email, aud="authenticated",
role="authenticated", iat=now, exp=now+3600, and, when the RPC row stores
no name, a user record whose name is the email's local part. -/
theorem login_fallback_token_shape (env : AuthEnv) (provider : ProviderResp)
    (row : RpcRow) (rest : List RpcRow) (now : Int)
    (hunavail : providerUnavailable provider = true)
    (hvalid : row.is_valid = true) (hname : row.name = none) :
    (login env provider (.rows (row :: rest)) now).1
      = .success
          { access_token := .minted
              { alg := "HS256", kid := none
                claims :=
                  { sub := some row.id, email := some row.email
                    aud := some "authenticated", role := some "authenticated"
                    iat := some now, exp := some (now + 3600) }
                sigKey := .hs env.jwtSecret }
            token_type := "bearer", userId := row.id, userEmail := row.email
            userName := emailLocalPart row.email } := by
  cases provider with
  | ok b => simp [providerUnavailable] at hunavail
  | netError => simp [login, loginFallback, hvalid, hname, mintToken, pyOr]
  | err s m ed =>
    simp only [providerUnavailable, decide_eq_true_eq] at hunavail
    have h5 : ¬ (s < 500) := by omega
    simp [login, h5, loginFallback, hvalid, hname, mintToken, pyOr]

theorem login_fallback_token_shape_witness :
    (login ⟨"sec", []⟩ .netError (.rows [⟨true, "U1", "a@x.com", none⟩]) 100).1
      = .success
          { access_token := .minted
              { alg := "HS256", kid := none
                claims :=
                  { sub := some "U1", email := some "a@x.com"
                    aud := some "authenticated", role := some "authenticated"
                    iat := some 100, exp := some 3700 }
                sigKey := .hs "sec" }
            token_type := "bearer", userId := "U1", userEmail := "a@x.com"
            userName := "a" } :=
  login_fallback_token_shape ⟨"sec", []⟩ .netError ⟨true, "U1", "a@x.com", none⟩ [] 100
    rfl rfl rfl

/-- C1: when the provider is unavailable (5xx, network error, or timeout)
and the fallback RPC reports the credentials valid, `login` succeeds with
a locally minted token, and `get_current_user` under the same shared
secret accepts that token, yielding an identity whose subject is the
user id the RPC reported. -/
theorem login_fallback_roundtrip (env : AuthEnv) (provider : ProviderResp)
    (row : RpcRow) (rest : List RpcRow) (now : Int) (uid : String)
    (hunavail : providerUnavailable provider = true)
    (hvalid : row.is_valid = true)
    (huuid : pyUUID row.id = some uid) :
    ∃ t : Jwt,
      (login env provider (.rows (row :: rest)) now).1
          = .success
              { access_token := .minted t, token_type := "bearer", userId := row.id
                userEmail := row.email, userName := pyOr row.name (emailLocalPart row.email) } ∧
        getCurrentUser env (some t) now = .ok ⟨uid, some row.email⟩ := by
  refine ⟨mintToken env.jwtSecret row.id row.email now, ?_,
    getCurrentUser_mint env row.id row.email now uid huuid⟩
  cases provider with
  | ok b => simp [providerUnavailable] at hunavail
  | netError => simp [login, loginFallback, hvalid]
  | err s m ed =>
    simp only [providerUnavailable, decide_eq_true_eq] at hunavail
    have h5 : ¬ (s < 500) := by omega
    simp [login, h5, loginFallback, hvalid]

theorem login_fallback_roundtrip_witness :
    ∃ t : Jwt,
      (login ⟨"sec", []⟩ (.err 503 none none)
          (.rows [⟨true, "123e4567-e89b-12d3-a456-426614174000", "a@x.com", none⟩]) 100).1
          = .success
              { access_token := .minted t, token_type := "bearer"
                userId := "123e4567-e89b-12d3-a456-426614174000"
                userEmail := "a@x.com", userName := "a" }
        ∧ getCurrentUser ⟨"sec", []⟩ (some t) 100
            = .ok ⟨"123e4567e89b12d3a456426614174000", some "a@x.com"⟩ :=
  login_fallback_roundtrip ⟨"sec", []⟩ (.err 503 none none)
    ⟨true, "123e4567-e89b-12d3-a456-426614174000", "a@x.com", none⟩ [] 100
    "123e4567e89b12d3a456426614174000" rfl rfl (by decide)

/-- Replace only the audience claim of a token. -/
def setAud (t : Jwt) (a : Option String) : Jwt :=
  { t with claims := { t.claims with aud := a } }

/-- C3 counterexample: a token with valid signature and timestamps whose
subject is present but not a valid UUID does not fail with the
malformed-claims 401 — the `ValueError` from `UUID(user_id)` escapes the
handler (HTTP 500), a failure mode outside the verifier's taxonomy. -/
theorem invalid_uuid_subject_escapes :
    getCurrentUser ⟨"secret", []⟩
      (some ⟨"HS256", none,
        ⟨some "not-a-uuid", some "a@x.com", some "authenticated", some "authenticated",
          some 0, some 3600⟩, .hs "secret"⟩) 0
      = .uncaught "ValueError" := by decide

/-- C3 amended: for a token whose signature and timestamps verify, an
absent (or empty) subject fails with the malformed-claims 401; a present
subject that is not a valid UUID raises an uncaught `ValueError`
(outside the declared taxonomy); a valid-UUID subject yields the
identity. -/
theorem subject_claim_handling (env : AuthEnv) (t : Jwt) (now : Int)
    (hdec : decodeToken env t now = .ok t.claims) :
    (t.claims.sub = none →
        getCurrentUser env (some t) now = .httpError 401 "Token missing 'sub' claim") ∧
    (t.claims.sub = some "" →
        getCurrentUser env (some t) now = .httpError 401 "Token missing 'sub' claim") ∧
    (∀ s, t.claims.sub = some s → s ≠ "" → pyUUID s = none →
        getCurrentUser env (some t) now = .uncaught "ValueError") ∧
    (∀ s uid, t.claims.sub = some s → s ≠ "" → pyUUID s = some uid →
        getCurrentUser env (some t) now = .ok ⟨uid, t.claims.email⟩) := by
  refine ⟨?_, ?_, ?_, ?_⟩
  · intro h
    simp [getCurrentUser, hdec, h]
  · intro h
    simp [getCurrentUser, hdec, h]
  · intro s hs hne hu
    simp [getCurrentUser, hdec, hs, hne, hu]
  · intro s uid hs hne hu
    exact getCurrentUser_ok env t now s uid hdec hs hne hu

theorem subject_claim_handling_witness :
    getCurrentUser ⟨"sec", []⟩
      (some ⟨"HS256", none, ⟨none, none, none, none, none, none⟩, .hs "sec"⟩) 0
      = .httpError 401 "Token missing 'sub' claim" :=
  (subject_claim_handling ⟨"sec", []⟩
    ⟨"HS256", none, ⟨none, none, none, none, none, none⟩, .hs "sec"⟩ 0 rfl).1 rfl

/-- C6 counterexample: a token expired far beyond the 30-second leeway but
carrying an invalid signature fails with the bad-signature 401, not the
expired one — PyJWT verifies the signature before the timestamps, so the
claim's "regardless of signature validity" does not hold. -/
theorem expired_with_bad_signature :
    getCurrentUser ⟨"secret", []⟩
      (some ⟨"HS256", none,
        ⟨some "123e4567-e89b-12d3-a456-426614174000", some "a@x.com", some "authenticated",
          some "authenticated", some 0, some 100⟩, .hs "wrong"⟩) 1000
      = .httpError 401 "Invalid token signature" := by decide

/-- C6 amended: for every token that passes the verifier's signature
stage (key resolution and signature check) and whose issued-at is within
skew, an `exp` lying more than 30 seconds in the past fails with the
expired 401. -/
theorem expired_token_rejected (env : AuthEnv) (t : Jwt) (now e : Int)
    (hsig : verifierSigCheck env t = none)
    (hiat : ∀ i, t.claims.iat = some i → i ≤ now + 30)
    (hexp : t.claims.exp = some e) (hpast : e < now - 30) :
    getCurrentUser env (some t) now = .httpError 401 "Token has expired" := by
  have hval : validateClaims t.claims now 30 = some .expiredSignature := by
    unfold validateClaims
    cases hi : t.claims.iat with
    | none =>
      simp only [hexp]
      rw [if_pos (by omega)]
    | some i =>
      have h2 := hiat i hi
      simp only [hexp]
      rw [if_neg (by omega), if_pos (by omega)]
  have hdec : decodeToken env t now = .error .expiredSignature := by
    rw [decodeToken_decomp, hsig]
    simp [hval]
  simp [getCurrentUser, hdec]

theorem expired_token_rejected_witness :
    getCurrentUser ⟨"sec", []⟩
      (some ⟨"HS256", none, ⟨some "x", none, none, none, some 0, some 100⟩, .hs "sec"⟩) 1000
      = .httpError 401 "Token has expired" :=
  expired_token_rejected ⟨"sec", []⟩
    ⟨"HS256", none, ⟨some "x", none, none, none, some 0, some 100⟩, .hs "sec"⟩ 1000 100
    (by decide) (fun i hi => by injection hi with h; omega) rfl (by decide)

/-- C4: the token verifier dispatches on the unverified header algorithm:
ES/RS/PS-family algorithms are verified with the key resolved by kid from
the JWKS set and never consult the shared secret; all other algorithms
are verified against the shared secret (never consulting the key set)
with HS256, HS384 and HS512 all accepted; the audience claim never
affects the verification outcome; and claim validation applies exactly a
30-second leeway to issued-at and expiry. -/
theorem decode_token_dispatch (env : AuthEnv) (t : Jwt) (now : Int) :
    (isAsymAlg t.alg = true → ∀ s1 s2 : String,
        decodeToken ⟨s1, env.jwks⟩ t now = decodeToken ⟨s2, env.jwks⟩ t now) ∧
    (isAsymAlg t.alg = false → ∀ j1 j2 : List (String × String),
        decodeToken ⟨env.jwtSecret, j1⟩ t now = decodeToken ⟨env.jwtSecret, j2⟩ t now) ∧
    (∀ alg kid claims, (alg = "HS256" ∨ alg = "HS384" ∨ alg = "HS512") →
        validateClaims claims now 30 = none →
        decodeToken env ⟨alg, kid, claims, .hs env.jwtSecret⟩ now = .ok claims) ∧
    (∀ alg kid k claims, isAsymAlg alg = true → getSigningKey env.jwks kid = some k →
        validateClaims claims now 30 = none →
        decodeToken env ⟨alg, kid, claims, .pub k⟩ now = .ok claims) ∧
    (∀ alg kid claims sk, isAsymAlg alg = true → getSigningKey env.jwks kid = none →
        decodeToken env ⟨alg, kid, claims, sk⟩ now = .error .jwkClientError) ∧
    (∀ a er, decodeToken env (setAud t a) now = .error er ↔
        decodeToken env t now = .error er) ∧
    (∀ claims, validateClaims claims now 30 = none ↔
        ((∀ i, claims.iat = some i → i ≤ now + 30) ∧
          (∀ e, claims.exp = some e → now - 30 < e))) := by
  refine ⟨?_, ?_, ?_, ?_, ?_, ?_, fun claims => validateClaims_iff claims now⟩
  · intro h s1 s2
    simp [decodeToken, h]
  · intro h j1 j2
    simp [decodeToken, h]
  · intro alg kid claims halg hval
    have hmem : ("HS256" : String) ∈ ["HS256", "HS384", "HS512"] := by decide
    have hmem2 : ("HS384" : String) ∈ ["HS256", "HS384", "HS512"] := by decide
    have hmem3 : ("HS512" : String) ∈ ["HS256", "HS384", "HS512"] := by decide
    rcases halg with h | h | h <;> subst h <;>
      simp [decodeToken, pyjwtDecode, verifySignature, hval, hmem, hmem2, hmem3,
        show isAsymAlg "HS256" = false from by decide,
        show isAsymAlg "HS384" = false from by decide,
        show isAsymAlg "HS512" = false from by decide]
  · intro alg kid k claims halg hkid hval
    simp [decodeToken, halg, hkid, pyjwtDecode, verifySignature, hval]
  · intro alg kid claims sk halg hkid
    simp [decodeToken, halg, hkid]
  · intro a er
    rw [decodeToken_decomp, decodeToken_decomp]
    have h1 : verifierSigCheck env (setAud t a) = verifierSigCheck env t := rfl
    have h2 : validateClaims (setAud t a).claims now 30 = validateClaims t.claims now 30 := rfl
    rw [h1, h2]
    cases verifierSigCheck env t <;> cases validateClaims t.claims now 30 <;> simp

theorem decode_token_dispatch_witness :
    decodeToken ⟨"sec", []⟩
      ⟨"HS384", none, ⟨some "x", none, none, none, some 5, some 100⟩, .hs "sec"⟩ 10
      = .ok ⟨some "x", none, none, none, some 5, some 100⟩ :=
  (decode_token_dispatch ⟨"sec", []⟩
    ⟨"HS384", none, ⟨some "x", none, none, none, some 5, some 100⟩, .hs "sec"⟩ 10).2.2.1
    "HS384" none ⟨some "x", none, none, none, some 5, some 100⟩
    (Or.inr (Or.inl rfl)) (by decide)

/-- C7: a provider signup response indicating the email is already
registered (a 422 status, whatever its wording, or an "already
registered" detail) maps to the 409 conflict; every other 4xx maps to a
400 carrying the provider's detail; any raised exception maps to 503. -/
theorem signup_error_mapping (env : AuthEnv) (now : Int) (statusCode : Nat)
    (body : Option SignupBody) (msg errDesc message : Option String) :
    (400 ≤ statusCode →
        indicatesAlreadyRegistered statusCode
            (pyOr msg (pyOr errDesc (pyOr message "Signup failed"))) = true →
        signup env (.resp statusCode body msg errDesc message) now
          = .httpExc 409 "Email already registered") ∧
    (400 ≤ statusCode → statusCode < 500 →
        indicatesAlreadyRegistered statusCode
            (pyOr msg (pyOr errDesc (pyOr message "Signup failed"))) = false →
        signup env (.resp statusCode body msg errDesc message) now
          = .httpExc 400 (pyOr msg (pyOr errDesc (pyOr message "Signup failed")))) ∧
    (∀ m, signup env (.exn m) now = .httpExc 503 ("Auth service unavailable: " ++ m)) := by
  refine ⟨?_, ?_, fun m => rfl⟩
  · intro h4 hreg
    have h200 : ¬ (statusCode = 200 ∨ statusCode = 201) := by omega
    simp [signup, h200, h4, hreg]
  · intro h4 _h5 hreg
    have h200 : ¬ (statusCode = 200 ∨ statusCode = 201) := by omega
    simp [signup, h200, h4, hreg]

theorem signup_error_mapping_witness :
    signup ⟨"sec", []⟩ (.resp 422 none (some "duplicate key value") none none) 0
      = .httpExc 409 "Email already registered" :=
  (signup_error_mapping ⟨"sec", []⟩ 0 422 none (some "duplicate key value") none none).1
    (by decide) (by decide)

/-- C9 counterexample: logout, email verification, and
resend-verification carry no authentication dependency — called with no
credential at all they succeed rather than failing unauthenticated. -/
theorem no_auth_endpoints_succeed_without_credential :
    logout = .okMsg "Logged out successfully" ∧
    verifyEmail (.ok ⟨200, none, none⟩) = .okMsg "Email verified successfully" ∧
    resendVerification (.ok 200) = .okMsg "Verification email sent" :=
  ⟨rfl, rfl, rfl⟩

/-- C9 amended: password-set, current-user fetch, and profile patch
reject a missing bearer credential with the unauthenticated 401 (and the
profile patch leaves the user table untouched); email verification,
resend-verification, and logout take no credential and can never produce
a 401 — their outcomes are only success, 400, or 503. -/
theorem bearer_requirement_by_endpoint :
    (∀ (env : AuthEnv) (now : Int) adminResp,
        setPassword env none now adminResp = .httpExc 401 "Not authenticated") ∧
    (∀ (env : AuthEnv) (now : Int) profileRes identRes adminRes,
        meEndpoint env none now profileRes identRes adminRes
          = .error (.httpExc 401 "Not authenticated")) ∧
    (∀ (env : AuthEnv) (now : Int) body users dbExn,
        updateProfile env none now body users dbExn
          = (.httpExc 401 "Not authenticated", users)) ∧
    (∀ resp, verifyEmail resp = .okMsg "Email verified successfully" ∨
        (∃ d, verifyEmail resp = .httpExc 400 d) ∨
        (∃ d, verifyEmail resp = .httpExc 503 d)) ∧
    (∀ resp, resendVerification resp = .okMsg "Verification email sent" ∨
        resendVerification resp = .httpExc 400 "Failed to resend verification email" ∨
        (∃ d, resendVerification resp = .httpExc 503 d)) ∧
    logout = .okMsg "Logged out successfully" := by
  refine ⟨fun env now adminResp => rfl, fun env now p i a => rfl,
    fun env now body users dbExn => rfl, ?_, ?_, rfl⟩
  · intro resp
    cases resp with
    | error m => exact Or.inr (Or.inr ⟨_, rfl⟩)
    | ok r =>
      by_cases h200 : r.statusCode = 200
      · exact Or.inl (by simp [verifyEmail, h200])
      · refine Or.inr (Or.inl ⟨pyOr r.errDesc (pyOr r.message "Verification failed"), ?_⟩)
        simp [verifyEmail, h200]
  · intro resp
    cases resp with
    | error m => exact Or.inr (Or.inr ⟨_, rfl⟩)
    | ok s =>
      by_cases h200 : s = 200
      · exact Or.inl (by simp [resendVerification, h200])
      · exact Or.inr (Or.inl (by simp [resendVerification, h200]))

/-- C10: a profile patch with both name and display_name absent fails
with the 400 "No fields to update" and leaves the users table exactly as
it was. -/
theorem update_profile_no_fields (env : AuthEnv) (cred : Option Jwt) (now : Int)
    (body : UpdateProfileRequest) (users : List UserRow) (dbExn : Option String)
    (d : TokenData)
    (hauth : getCurrentUser env cred now = .ok d)
    (h1 : body.name = none) (h2 : body.display_name = none) :
    updateProfile env cred now body users dbExn
      = (.httpExc 400 "No fields to update", users) := by
  simp [updateProfile, hauth, h1, h2]

theorem update_profile_no_fields_witness :
    updateProfile ⟨"sec", []⟩
      (some (mintToken "sec" "123e4567-e89b-12d3-a456-426614174000" "a@x.com" 0)) 0
      ⟨none, none⟩ [] none
      = (.httpExc 400 "No fields to update", []) :=
  update_profile_no_fields ⟨"sec", []⟩
    (some (mintToken "sec" "123e4567-e89b-12d3-a456-426614174000" "a@x.com" 0)) 0
    ⟨none, none⟩ [] none
    ⟨"123e4567e89b12d3a456426614174000", some "a@x.com"⟩ (by decide) rfl rfl

end DevlogsAuth
